import Mathlib

/-!
Shallow embedding of the Ledger Mutation & Audit Engine of the
ibm-cics-banking-python repository (src/python/{config,dao,services,credit}.py).

The relational store is modelled as three lists (customers, accounts,
transactions); every DAO method becomes a pure function over that state and
every service becomes a function returning `Except Err (DB × result)`.
Nondeterministic inputs of the real code (the credit score drawn by the
scoring fan-out, today's date, the audit timestamp) are threaded as explicit
parameters.  All money is Int (cents), all identifiers Nat, exactly as the
SQLite schema stores them.
-/

namespace Bank

/-- CPython's Py_UNICODE_ISSPACE, the whitespace test used by str.split()
and str.strip() with no arguments: SPACE, the ASCII control whitespace
TAB..CR, the separator controls FS/GS/RS/US (U+001C..U+001F), NEL (U+0085),
NO-BREAK SPACE (U+00A0), OGHAM SPACE MARK (U+1680), EN QUAD..HAIR SPACE
(U+2000..U+200A), LINE and PARAGRAPH SEPARATOR (U+2028, U+2029), NARROW
NO-BREAK SPACE (U+202F), MEDIUM MATHEMATICAL SPACE (U+205F) and IDEOGRAPHIC
SPACE (U+3000). -/
def isPySpace (c : Char) : Bool :=
  (0x09 ≤ c.toNat && c.toNat ≤ 0x0d) || c.toNat == 0x20 ||
  (0x1c ≤ c.toNat && c.toNat ≤ 0x1f) || c.toNat == 0x85 || c.toNat == 0xa0 ||
  c.toNat == 0x1680 || (0x2000 ≤ c.toNat && c.toNat ≤ 0x200a) ||
  c.toNat == 0x2028 || c.toNat == 0x2029 || c.toNat == 0x202f ||
  c.toNat == 0x205f || c.toNat == 0x3000

/-- Python str.split() with no separator argument, on the character list:
split on runs of whitespace, producing no empty tokens.  The second argument
accumulates the current token in reverse. -/
def pySplitAux : List Char → List Char → List (List Char)
  | [], cur => if cur.isEmpty then [] else [cur.reverse]
  | c :: rest, cur =>
    if isPySpace c then
      if cur.isEmpty then pySplitAux rest [] else cur.reverse :: pySplitAux rest []
    else pySplitAux rest (c :: cur)

/-- Python str.split() with no separator argument. -/
def pySplit (s : String) : List String :=
  (pySplitAux s.data []).map List.asString

/-- Python str.strip(): remove leading and trailing whitespace. -/
def pyStrip (s : String) : String :=
  (((s.data.dropWhile isPySpace).reverse.dropWhile isPySpace).reverse).asString

-- ── config.py ────────────────────────────────────────────

def SORT_CODE : String := "987654"

def MAX_ACCOUNTS_PER_QUERY : Nat := 20

def VALID_TITLES : List String :=
  ["Mr", "Mrs", "Miss", "Ms", "Dr", "Drs",
   "Professor", "Lord", "Sir", "Lady", ""]

def VALID_ACCOUNT_TYPES : List String :=
  ["CURRENT", "SAVING", "LOAN", "MORTGAGE", "ISA"]

/-- One row of the DEFAULT_RATES table: interest in hundredths, overdraft in cents. -/
structure Rates where
  interest : Int
  overdraft : Int
deriving Repr, DecidableEq

/-- config.DEFAULT_RATES as a partial map from account type. -/
def DEFAULT_RATES (account_type : String) : Option Rates :=
  if account_type == "ISA" then some ⟨250, 0⟩
  else if account_type == "SAVING" then some ⟨150, 0⟩
  else if account_type == "CURRENT" then some ⟨0, 0⟩
  else if account_type == "LOAN" then some ⟨750, 0⟩
  else if account_type == "MORTGAGE" then some ⟨450, 0⟩
  else none

-- ── database.py: the three tables, as row lists ──────────

/-- A row of the customers table. -/
structure Customer where
  sortcode : String
  number : Nat
  name : String
  address : String
  date_of_birth : String
  credit_score : Nat
  cs_review_date : String
deriving Repr, DecidableEq

/-- A row of the accounts table. -/
structure Account where
  sortcode : String
  number : Nat
  customer_number : Nat
  account_type : String
  interest_rate : Int
  opened : String
  overdraft_limit : Int
  available_balance : Int
  actual_balance : Int
deriving Repr, DecidableEq

/-- A row of the transactions (audit) table; the AUTOINCREMENT surrogate key
is the position in the list (rows are append-only). -/
structure Transaction where
  sortcode : String
  account_number : Nat
  trans_date : String
  trans_time : String
  trans_type : String
  description : String
  amount : Int
deriving Repr, DecidableEq

/-- The persistent store seen by one unit of work. -/
structure DB where
  customers : List Customer
  accounts : List Account
  transactions : List Transaction
deriving Repr, DecidableEq

def emptyDB : DB := ⟨[], [], []⟩

-- ── dao.py: CustomerDAO ──────────────────────────────────

namespace CustomerDAO

/-- SELECT * FROM customers WHERE sortcode=? AND number=? -/
def get (db : DB) (sortcode : String) (number : Nat) : Option Customer :=
  db.customers.find? (fun c => c.sortcode == sortcode && c.number == number)

/-- INSERT INTO customers VALUES (...) -/
def create (db : DB) (sortcode : String) (number : Nat) (name address
    date_of_birth : String) (credit_score : Nat) (cs_review_date : String) : DB :=
  { db with customers := db.customers ++
      [⟨sortcode, number, name, address, date_of_birth, credit_score, cs_review_date⟩] }

/-- UPDATE customers SET (supplied fields) WHERE sortcode=? AND number=? -/
def update (db : DB) (sortcode : String) (number : Nat)
    (name address : Option String) : DB :=
  if name.isNone && address.isNone then db
  else
    { db with customers := db.customers.map (fun c =>
        if c.sortcode == sortcode && c.number == number then
          { c with name := name.getD c.name, address := address.getD c.address }
        else c) }

/-- DELETE FROM customers WHERE sortcode=? AND number=? -/
def delete (db : DB) (sortcode : String) (number : Nat) : DB :=
  { db with customers :=
      db.customers.filter (fun c => !(c.sortcode == sortcode && c.number == number)) }

/-- SELECT COALESCE(MAX(number), 0) + 1 FROM customers WHERE sortcode=? -/
def next_number (db : DB) (sortcode : String) : Nat :=
  (((db.customers.filter (fun c => c.sortcode == sortcode)).map
      Customer.number).foldr max 0) + 1

end CustomerDAO

-- ── dao.py: AccountDAO ───────────────────────────────────

namespace AccountDAO

/-- SELECT * FROM accounts WHERE sortcode=? AND number=? -/
def get (db : DB) (sortcode : String) (number : Nat) : Option Account :=
  db.accounts.find? (fun a => a.sortcode == sortcode && a.number == number)

/-- Insertion step for ORDER BY number (ascending, stable). -/
def insertByNumber (a : Account) : List Account → List Account
  | [] => [a]
  | b :: rest =>
    if a.number < b.number then a :: b :: rest else b :: insertByNumber a rest

/-- ORDER BY number (ascending, stable insertion sort). -/
def sortByNumber : List Account → List Account
  | [] => []
  | a :: rest => insertByNumber a (sortByNumber rest)

/-- SELECT * FROM accounts WHERE sortcode=? AND customer_number=?
ORDER BY number LIMIT ?  — every caller in services.py uses the Python
default limit, MAX_ACCOUNTS_PER_QUERY. -/
def get_by_customer (db : DB) (sortcode : String) (customer_number : Nat)
    (limit : Nat) : List Account :=
  (sortByNumber (db.accounts.filter (fun a =>
      a.sortcode == sortcode && a.customer_number == customer_number))).take limit

/-- INSERT INTO accounts (..., available_balance, actual_balance)
VALUES (..., 0, 0) -/
def create (db : DB) (sortcode : String) (number customer_number : Nat)
    (account_type : String) (interest_rate : Int) (opened : String)
    (overdraft_limit : Int) : DB :=
  { db with accounts := db.accounts ++
      [⟨sortcode, number, customer_number, account_type, interest_rate,
        opened, overdraft_limit, 0, 0⟩] }

/-- UPDATE accounts SET (supplied fields) WHERE sortcode=? AND number=? -/
def update (db : DB) (sortcode : String) (number : Nat)
    (account_type : Option String) (interest_rate overdraft_limit : Option Int) : DB :=
  if account_type.isNone && interest_rate.isNone && overdraft_limit.isNone then db
  else
    { db with accounts := db.accounts.map (fun a =>
        if a.sortcode == sortcode && a.number == number then
          { a with account_type := account_type.getD a.account_type,
                   interest_rate := interest_rate.getD a.interest_rate,
                   overdraft_limit := overdraft_limit.getD a.overdraft_limit }
        else a) }

/-- UPDATE accounts SET available_balance=?, actual_balance=?
WHERE sortcode=? AND number=? -/
def update_balance (db : DB) (sortcode : String) (number : Nat)
    (available_balance actual_balance : Int) : DB :=
  { db with accounts := db.accounts.map (fun a =>
      if a.sortcode == sortcode && a.number == number then
        { a with available_balance := available_balance,
                 actual_balance := actual_balance }
      else a) }

/-- DELETE FROM accounts WHERE sortcode=? AND number=? -/
def delete (db : DB) (sortcode : String) (number : Nat) : DB :=
  { db with accounts :=
      db.accounts.filter (fun a => !(a.sortcode == sortcode && a.number == number)) }

/-- SELECT COALESCE(MAX(number), 0) + 1 FROM accounts WHERE sortcode=? -/
def next_number (db : DB) (sortcode : String) : Nat :=
  (((db.accounts.filter (fun a => a.sortcode == sortcode)).map
      Account.number).foldr max 0) + 1

end AccountDAO

-- ── dao.py: TransactionDAO ───────────────────────────────

namespace TransactionDAO

/-- INSERT INTO transactions VALUES (...) — append-only. -/
def create (db : DB) (sortcode : String) (account_number : Nat)
    (trans_date trans_time trans_type description : String) (amount : Int) : DB :=
  { db with transactions := db.transactions ++
      [⟨sortcode, account_number, trans_date, trans_time, trans_type,
        description, amount⟩] }

end TransactionDAO

-- ── credit.py ────────────────────────────────────────────

/-- The list comprehension [f.result(timeout=10) for f in futures]: a probe
that timed out (none) aborts the whole collection. -/
def collectScores : List (Option Nat) → Option (List Nat)
  | [] => some []
  | none :: _ => none
  | some v :: rest => (collectScores rest).map (fun vs => v :: vs)

/-- credit_check: run the probes, join on all of them, return the truncated
mean.  Each probe outcome is threaded as `some score` (a draw of
random.randint(1, 999)) or `none` (the probe exceeded the 10s result
timeout, which in the code raises and aborts the whole computation). -/
def credit_check (draws : List (Option Nat)) : Option Nat :=
  (collectScores draws).map (fun scores => scores.sum / scores.length)

-- ── services.py ──────────────────────────────────────────

/-- The four exception classes raised by the service layer, with their
messages. -/
inductive Err where
  | customerNotFound (msg : String)
  | accountNotFound (msg : String)
  | validationError (msg : String)
  | insufficientFunds (msg : String)
deriving Repr, DecidableEq

/-- services._audit: one audit row; date and time (datetime.now() in the
code) are threaded as parameters. -/
def _audit (db : DB) (sortcode : String) (account_number : Nat)
    (trans_type description : String) (amount : Int)
    (transDate transTime : String) : DB :=
  TransactionDAO.create db sortcode account_number transDate transTime
    trans_type description amount

/-- The title computation of create_customer / update_customer:
name.split()[0] if name.strip() else "". -/
def titleOf (name : String) : String :=
  if (pyStrip name).isEmpty then "" else (pySplit name).headD ""

/-- services.create_customer; `score` is the credit_check() result and
`today` is date.today().isoformat(). -/
def create_customer (db : DB) (name : String) (address date_of_birth : String)
    (sortcode : String) (score : Nat) (today transDate transTime : String) :
    Except Err (DB × Option Customer) :=
  let title := titleOf name
  if VALID_TITLES.contains title then
    let number := CustomerDAO.next_number db sortcode
    let db := CustomerDAO.create db sortcode number name address date_of_birth
      score today
    let db := _audit db sortcode 0 "OCC"
      ("Create customer " ++ toString number) 0 transDate transTime
    .ok (db, CustomerDAO.get db sortcode number)
  else
    .error (.validationError ("Invalid title: \x27" ++ title ++ "\x27"))

/-- services.create_account; `today` is date.today().isoformat(). -/
def create_account (db : DB) (customer_number : Nat) (account_type : String)
    (interest_rate overdraft_limit : Option Int) (sortcode : String)
    (today transDate transTime : String) : Except Err (DB × Option Account) :=
  if !(VALID_ACCOUNT_TYPES.contains account_type) then
    .error (.validationError ("Invalid account type: \x27" ++ account_type ++ "\x27"))
  else
    match CustomerDAO.get db sortcode customer_number with
    | none => .error (.customerNotFound
        ("Customer " ++ toString customer_number ++ " not found"))
    | some _ =>
      let defaults := DEFAULT_RATES account_type
      let interest_rate := interest_rate.getD
        (match defaults with | some d => d.interest | none => 0)
      let overdraft_limit := overdraft_limit.getD
        (match defaults with | some d => d.overdraft | none => 0)
      let number := AccountDAO.next_number db sortcode
      let db := AccountDAO.create db sortcode number customer_number
        account_type interest_rate today overdraft_limit
      let db := _audit db sortcode number "OCA"
        ("Create account for cust " ++ toString customer_number) 0 transDate transTime
      .ok (db, AccountDAO.get db sortcode number)

/-- services.update_customer. -/
def update_customer (db : DB) (number : Nat) (name address : Option String)
    (sortcode : String) : Except Err (DB × Option Customer) :=
  match CustomerDAO.get db sortcode number with
  | none => .error (.customerNotFound
      ("Customer " ++ toString number ++ " not found"))
  | some _ =>
    match name with
    | some nm =>
      let title := titleOf nm
      if VALID_TITLES.contains title then
        let db := CustomerDAO.update db sortcode number name address
        .ok (db, CustomerDAO.get db sortcode number)
      else
        .error (.validationError ("Invalid title: \x27" ++ title ++ "\x27"))
    | none =>
      let db := CustomerDAO.update db sortcode number name address
      .ok (db, CustomerDAO.get db sortcode number)

/-- services.update_account. -/
def update_account (db : DB) (number : Nat) (account_type : Option String)
    (interest_rate overdraft_limit : Option Int) (sortcode : String) :
    Except Err (DB × Option Account) :=
  match AccountDAO.get db sortcode number with
  | none => .error (.accountNotFound
      ("Account " ++ toString number ++ " not found"))
  | some _ =>
    match account_type with
    | some t =>
      if !(VALID_ACCOUNT_TYPES.contains t) then
        .error (.validationError ("Invalid account type: \x27" ++ t ++ "\x27"))
      else
        let db := AccountDAO.update db sortcode number account_type
          interest_rate overdraft_limit
        .ok (db, AccountDAO.get db sortcode number)
    | none =>
      let db := AccountDAO.update db sortcode number account_type
        interest_rate overdraft_limit
      .ok (db, AccountDAO.get db sortcode number)

/-- services.delete_account. -/
def delete_account (db : DB) (number : Nat) (sortcode : String)
    (transDate transTime : String) : Except Err (DB × Bool) :=
  match AccountDAO.get db sortcode number with
  | none => .error (.accountNotFound
      ("Account " ++ toString number ++ " not found"))
  | some _ =>
    let db := AccountDAO.delete db sortcode number
    let db := _audit db sortcode number "ODA"
      ("Delete account " ++ toString number) 0 transDate transTime
    .ok (db, true)

/-- The `for acc in accounts: delete_account(conn, acc["number"], sortcode)`
loop of delete_customer; the account list was computed before the loop. -/
def deleteAccountsLoop (db : DB) (nums : List Nat) (sortcode : String)
    (transDate transTime : String) : Except Err DB :=
  match nums with
  | [] => .ok db
  | n :: rest =>
    match delete_account db n sortcode transDate transTime with
    | .error e => .error e
    | .ok r => deleteAccountsLoop r.1 rest sortcode transDate transTime

/-- services.delete_customer — cascade delete. -/
def delete_customer (db : DB) (number : Nat) (sortcode : String)
    (transDate transTime : String) : Except Err (DB × Bool) :=
  match CustomerDAO.get db sortcode number with
  | none => .error (.customerNotFound
      ("Customer " ++ toString number ++ " not found"))
  | some _ =>
    let accounts := AccountDAO.get_by_customer db sortcode number
      MAX_ACCOUNTS_PER_QUERY
    match deleteAccountsLoop db (accounts.map Account.number) sortcode
        transDate transTime with
    | .error e => .error e
    | .ok db2 =>
      let db3 := CustomerDAO.delete db2 sortcode number
      let db4 := _audit db3 sortcode 0 "ODC"
        ("Delete customer " ++ toString number) 0 transDate transTime
      .ok (db4, true)

/-- services.transfer_funds — no overdraft check, matching COBOL XFRFUN.
Both accounts are read before either balance is written. -/
def transfer_funds (db : DB) (from_number to_number : Nat) (amount : Int)
    (sortcode : String) (transDate transTime : String) :
    Except Err (DB × Int × Int) :=
  let from_acc := AccountDAO.get db sortcode from_number
  let to_acc := AccountDAO.get db sortcode to_number
  match from_acc with
  | none => .error (.accountNotFound
      ("From-account " ++ toString from_number ++ " not found"))
  | some f =>
    match to_acc with
    | none => .error (.accountNotFound
        ("To-account " ++ toString to_number ++ " not found"))
    | some t =>
      let new_from_avail := f.available_balance - amount
      let new_from_actual := f.actual_balance - amount
      let db := AccountDAO.update_balance db sortcode from_number
        new_from_avail new_from_actual
      let new_to_avail := t.available_balance + amount
      let new_to_actual := t.actual_balance + amount
      let db := AccountDAO.update_balance db sortcode to_number
        new_to_avail new_to_actual
      let db := _audit db sortcode from_number "TFR"
        ("Transfer to " ++ toString to_number) amount transDate transTime
      let db := _audit db sortcode to_number "TFR"
        ("Transfer from " ++ toString from_number) amount transDate transTime
      .ok (db, new_from_actual, new_to_actual)

/-- services.debit_credit. -/
def debit_credit (db : DB) (number : Nat) (amount : Int) (is_debit : Bool)
    (sortcode : String) (transDate transTime : String) :
    Except Err (DB × Int × Int) :=
  match AccountDAO.get db sortcode number with
  | none => .error (.accountNotFound
      ("Account " ++ toString number ++ " not found"))
  | some acc =>
    let signed := if is_debit then -amount else amount
    if is_debit && (acc.account_type == "MORTGAGE" || acc.account_type == "LOAN") then
      .error (.validationError "Cannot debit MORTGAGE/LOAN account")
    else if is_debit && decide (acc.available_balance + signed < 0) then
      .error (.insufficientFunds "Insufficient funds for debit")
    else
      let new_avail := acc.available_balance + signed
      let new_actual := acc.actual_balance + signed
      let db := AccountDAO.update_balance db sortcode number new_avail new_actual
      let ttype := if is_debit then "DEB" else "CRE"
      let db := _audit db sortcode number ttype
        ((if is_debit then "Debit " else "Credit ") ++ toString amount)
        |signed| transDate transTime
      .ok (db, new_avail, new_actual)

/-- Every stored account has its available balance equal to its actual
balance. -/
def balanced (db : DB) : Prop :=
  ∀ a ∈ db.accounts, a.available_balance = a.actual_balance

/-- One invocation of a Ledger Engine operation with all its inputs,
including the nondeterministic ones (score, dates). -/
inductive Op where
  | opCreateCustomer (name address dob sortcode : String) (score : Nat)
      (today transDate transTime : String)
  | opCreateAccount (customer_number : Nat) (account_type : String)
      (interest_rate overdraft_limit : Option Int)
      (sortcode today transDate transTime : String)
  | opUpdateCustomer (number : Nat) (name address : Option String)
      (sortcode : String)
  | opUpdateAccount (number : Nat) (account_type : Option String)
      (interest_rate overdraft_limit : Option Int) (sortcode : String)
  | opDeleteAccount (number : Nat) (sortcode transDate transTime : String)
  | opDeleteCustomer (number : Nat) (sortcode transDate transTime : String)
  | opDebitCredit (number : Nat) (amount : Int) (is_debit : Bool)
      (sortcode transDate transTime : String)
  | opTransferFunds (from_number to_number : Nat) (amount : Int)
      (sortcode transDate transTime : String)

/-- Run one operation in its own unit of work: on success the new store is
committed; on an engine exception the unit of work is rolled back, leaving
the store unchanged. -/
def runOp (op : Op) (db : DB) : DB :=
  match op with
  | .opCreateCustomer name address dob sc score today d tm =>
    match create_customer db name address dob sc score today d tm with
    | .ok (db', _) => db'
    | .error _ => db
  | .opCreateAccount cn t ir od sc today d tm =>
    match create_account db cn t ir od sc today d tm with
    | .ok (db', _) => db'
    | .error _ => db
  | .opUpdateCustomer n nm ad sc =>
    match update_customer db n nm ad sc with
    | .ok (db', _) => db'
    | .error _ => db
  | .opUpdateAccount n t ir od sc =>
    match update_account db n t ir od sc with
    | .ok (db', _) => db'
    | .error _ => db
  | .opDeleteAccount n sc d tm =>
    match delete_account db n sc d tm with
    | .ok (db', _) => db'
    | .error _ => db
  | .opDeleteCustomer n sc d tm =>
    match delete_customer db n sc d tm with
    | .ok (db', _) => db'
    | .error _ => db
  | .opDebitCredit n amount is_debit sc d tm =>
    match debit_credit db n amount is_debit sc d tm with
    | .ok (db', _) => db'
    | .error _ => db
  | .opTransferFunds fn tn amount sc d tm =>
    match transfer_funds db fn tn amount sc d tm with
    | .ok (db', _) => db'
    | .error _ => db

/-- Run a sequence of operations, each in its own unit of work. -/
def runOps (ops : List Op) (db : DB) : DB :=
  ops.foldl (fun d op => runOp op d) db

/-- Sequential customer creations: k successive create_customer calls with a
fixed valid name, starting from the empty store. -/
def createSeq : Nat → DB
  | 0 => emptyDB
  | k + 1 =>
    match create_customer (createSeq k) "Mr A" "addr" "1990-01-01" SORT_CODE
        500 "2026-10-12" "d" "t" with
    | .ok (db, _) => db
    | .error _ => createSeq k

/-- The failing input for the cascade delete: one customer owning 21
accounts (numbers 1..21). -/
def dbC1 : DB :=
  ⟨[⟨SORT_CODE, 1, "Mr A", "addr", "", 500, "rd"⟩],
   (List.range 21).map (fun i => ⟨SORT_CODE, i + 1, 1, "CURRENT", 0, "", 0, 0, 0⟩),
   []⟩

-- ═══════════════════════════════════════════════════════════
-- Helper lemmas
-- ═══════════════════════════════════════════════════════════

/-- Every member of a Nat list is bounded by its foldr max 0. -/
lemma foldr_max_le (l : List Nat) (x : Nat) (hx : x ∈ l) : x ≤ l.foldr max 0 := by
  induction l with
  | nil => cases hx
  | cons a t ih =>
    rcases List.mem_cons.mp hx with rfl | hmem
    · exact le_max_left _ _
    · exact le_trans (ih hmem) (le_max_right _ _)

/-- The foldr max 0 of a nonempty Nat list is one of its members. -/
lemma foldr_max_mem (l : List Nat) (hne : l ≠ []) : l.foldr max 0 ∈ l := by
  induction l with
  | nil => exact absurd rfl hne
  | cons a t ih =>
    cases t with
    | nil => simp
    | cons b u =>
      rcases max_choice a ((b :: u).foldr max 0) with h | h
      · simp only [List.foldr_cons] at h ⊢
        rw [h]; exact List.mem_cons_self _ _
      · simp only [List.foldr_cons] at h ⊢
        rw [h]; exact List.mem_cons_of_mem _ (ih (by simp))

/-- A fold of max over elements all bounded by the seed returns the seed. -/
lemma foldr_max_of_le (l : List Nat) (c : Nat) (h : ∀ x ∈ l, x ≤ c) :
    l.foldr max c = c := by
  induction l with
  | nil => rfl
  | cons a t ih =>
    simp only [List.foldr_cons]
    rw [ih (fun x hx => h x (List.mem_cons_of_mem _ hx))]
    exact max_eq_right (h a (List.mem_cons_self _ _))

/-- foldr max 0 over the numbers 1..k is k. -/
lemma foldr_max_range' (k : Nat) : (List.range' 1 k).foldr max 0 = k := by
  cases k with
  | zero => rfl
  | succ n =>
    have hconcat : List.range' 1 (n + 1) = List.range' 1 n ++ [1 + n] := by
      have h : List.range' 1 (n + 1) = List.range' 1 n ++ [1 + 1 * n] :=
        List.range'_concat 1 n
      simpa using h
    rw [hconcat, List.foldr_append]
    simp only [List.foldr_cons, List.foldr_nil, Nat.max_zero]
    rw [foldr_max_of_le _ _ (fun x hx => ?_)]
    · omega
    · have := (List.mem_range'_1).mp hx
      omega

-- ── pyStrip / pySplit bridging lemmas ────────────────────

lemma asString_eq_empty_iff (l : List Char) : l.asString = "" ↔ l = [] := by
  constructor
  · intro h
    have := congrArg String.data h
    simpa using this
  · rintro rfl; rfl

/-- pyStrip gives the empty string exactly when every character is whitespace. -/
lemma pyStrip_eq_empty_iff (s : String) :
    pyStrip s = "" ↔ s.data.all isPySpace = true := by
  unfold pyStrip
  rw [asString_eq_empty_iff, List.reverse_eq_nil_iff, List.dropWhile_eq_nil_iff,
    List.all_eq_true]
  constructor
  · intro h x hx
    by_cases hx2 : x ∈ (s.data.takeWhile isPySpace)
    · exact List.mem_takeWhile_imp hx2
    · have hsplit := List.takeWhile_append_dropWhile isPySpace s.data
      have : x ∈ s.data.takeWhile isPySpace ++ s.data.dropWhile isPySpace := by
        rw [hsplit]; exact hx
      rcases List.mem_append.mp this with h1 | h2
      · exact absurd h1 hx2
      · exact h x (List.mem_reverse.mpr h2)
  · intro h x hx
    have : x ∈ s.data.dropWhile isPySpace := List.mem_reverse.mp hx
    exact h x (List.Sublist.mem this (List.dropWhile_sublist _))

/-- pySplitAux with a nonempty accumulator never returns the empty list. -/
lemma pySplitAux_ne_nil (l : List Char) :
    ∀ cur, cur ≠ [] → pySplitAux l cur ≠ [] := by
  induction l with
  | nil =>
    intro cur hcur
    simp only [pySplitAux]
    rw [if_neg (by simpa [List.isEmpty_iff] using hcur)]
    simp
  | cons c rest ih =>
    intro cur hcur
    simp only [pySplitAux]
    by_cases hsp : isPySpace c = true
    · rw [if_pos hsp, if_neg (by simpa [List.isEmpty_iff] using hcur)]
      simp
    · rw [if_neg hsp]
      exact ih (c :: cur) (by simp)

/-- pySplit returns no token exactly when every character is whitespace. -/
lemma pySplitAux_eq_nil_iff (l : List Char) :
    pySplitAux l [] = [] ↔ l.all isPySpace = true := by
  induction l with
  | nil => simp [pySplitAux]
  | cons c rest ih =>
    simp only [pySplitAux, List.isEmpty_nil, if_true, List.all_cons]
    by_cases hsp : isPySpace c = true
    · rw [if_pos hsp, hsp]
      simpa using ih
    · rw [if_neg hsp]
      constructor
      · intro h
        exact absurd h (pySplitAux_ne_nil rest [c] (by simp))
      · intro h
        rw [Bool.and_eq_true] at h
        exact absurd h.1 hsp

/-- The title computed by the services is the first whitespace-delimited
token of the name, or "" when there is none. -/
lemma titleOf_eq_headD (name : String) :
    titleOf name = (pySplit name).headD "" := by
  unfold titleOf
  by_cases h : (pyStrip name).isEmpty = true
  · rw [if_pos h]
    have hall : name.data.all isPySpace = true := by
      rw [← pyStrip_eq_empty_iff]
      cases hps : pyStrip name with
      | mk l =>
        rw [hps] at h
        simp only [String.isEmpty_iff] at h
        exact h
    have : pySplitAux name.data [] = [] := (pySplitAux_eq_nil_iff _).mpr hall
    simp [pySplit, this]
  · rw [if_neg h]

-- ═══════════════════════════════════════════════════════════
-- C8: scoring fan-out
-- ═══════════════════════════════════════════════════════════

/-- A timed-out probe (none) anywhere aborts the whole collection. -/
lemma collectScores_eq_none {l : List (Option Nat)} (h : none ∈ l) :
    collectScores l = none := by
  induction l with
  | nil => cases h
  | cons s rest ih =>
    cases s with
    | none => rfl
    | some v =>
      have : none ∈ rest := by
        rcases List.mem_cons.mp h with h1 | h2
        · exact absurd h1 (by simp)
        · exact h2
      simp [collectScores, ih this]

/-- C8: with 5 probes each returning a score in [1,999], credit_check
returns exactly the truncated mean of the five scores, which again lies in
[1,999]; a timed-out probe (modelled as none) makes the whole computation
fail instead of averaging a subset. -/
theorem c8_credit_check_truncated_mean (draws : List (Option Nat))
    (hlen : draws.length = 5) :
    ((∀ s ∈ draws, ∃ v, s = some v ∧ 1 ≤ v ∧ v ≤ 999) →
      ∃ vals, collectScores draws = some vals ∧
        credit_check draws = some (vals.sum / 5) ∧
        1 ≤ vals.sum / 5 ∧ vals.sum / 5 ≤ 999) ∧
    (none ∈ draws → credit_check draws = none) := by
  constructor
  · intro hall
    match draws, hlen with
    | [s1, s2, s3, s4, s5], _ =>
      obtain ⟨v1, rfl, h11, h12⟩ := hall s1 (by simp)
      obtain ⟨v2, rfl, h21, h22⟩ := hall s2 (by simp)
      obtain ⟨v3, rfl, h31, h32⟩ := hall s3 (by simp)
      obtain ⟨v4, rfl, h41, h42⟩ := hall s4 (by simp)
      obtain ⟨v5, rfl, h51, h52⟩ := hall s5 (by simp)
      refine ⟨[v1, v2, v3, v4, v5], by simp [collectScores], ?_, ?_, ?_⟩
      · simp [credit_check, collectScores]
      · have h5 : 5 ≤ [v1, v2, v3, v4, v5].sum := by simp; omega
        calc 1 = 5 / 5 := rfl
        _ ≤ [v1, v2, v3, v4, v5].sum / 5 := Nat.div_le_div_right h5
      · have h5 : [v1, v2, v3, v4, v5].sum ≤ 4995 := by simp; omega
        calc [v1, v2, v3, v4, v5].sum / 5 ≤ 4995 / 5 := Nat.div_le_div_right h5
        _ = 999 := rfl
  · intro h
    simp [credit_check, collectScores_eq_none h]

/-- Witness for C8 at the concrete draw [10, 20, 30, 40, 55]. -/
theorem c8_witness :
    (∃ vals, collectScores [some 10, some 20, some 30, some 40, some 55] = some vals ∧
      credit_check [some 10, some 20, some 30, some 40, some 55] = some (vals.sum / 5) ∧
      1 ≤ vals.sum / 5 ∧ vals.sum / 5 ≤ 999) ∧
    (none ∈ [some 10, some 20, none, some 40, some 55] → credit_check [some 10, some 20, none, some 40, some 55] = none) :=
  ⟨(c8_credit_check_truncated_mean [some 10, some 20, some 30, some 40, some 55] rfl).1
      (by intro s hs
          simp only [List.mem_cons, List.not_mem_nil, or_false] at hs
          rcases hs with rfl | rfl | rfl | rfl | rfl
          · exact ⟨10, rfl, by omega, by omega⟩
          · exact ⟨20, rfl, by omega, by omega⟩
          · exact ⟨30, rfl, by omega, by omega⟩
          · exact ⟨40, rfl, by omega, by omega⟩
          · exact ⟨55, rfl, by omega, by omega⟩),
   (c8_credit_check_truncated_mean [some 10, some 20, none, some 40, some 55] rfl).2⟩

-- ═══════════════════════════════════════════════════════════
-- C6: title validation
-- ═══════════════════════════════════════════════════════════

/-- C6: the title is the first whitespace-delimited token of the name (the
empty string for a blank name); create_customer succeeds exactly for the
titles of the fixed enumeration — in particular for a blank name — and
raises ValidationError for any other first token; update_customer with a
supplied name revalidates the same way. -/
theorem c6_title_enumeration (db : DB) (name address dob sortcode : String)
    (score : Nat) (today transDate transTime : String) :
    titleOf name = (pySplit name).headD "" ∧
    ((∃ r, create_customer db name address dob sortcode score today transDate
        transTime = .ok r) ↔
      titleOf name ∈ ["Mr", "Mrs", "Miss", "Ms", "Dr", "Drs", "Professor",
        "Lord", "Sir", "Lady", ""]) ∧
    (titleOf name ∉ ["Mr", "Mrs", "Miss", "Ms", "Dr", "Drs", "Professor",
        "Lord", "Sir", "Lady", ""] →
      create_customer db name address dob sortcode score today transDate
        transTime =
        .error (.validationError ("Invalid title: \x27" ++ titleOf name ++ "\x27"))) ∧
    (∃ r, create_customer db "" address dob sortcode score today transDate
        transTime = .ok r) ∧
    (∀ number nm addr, CustomerDAO.get db sortcode number ≠ none →
      ((∃ r, update_customer db number (some nm) addr sortcode = .ok r) ↔
        titleOf nm ∈ ["Mr", "Mrs", "Miss", "Ms", "Dr", "Drs", "Professor",
          "Lord", "Sir", "Lady", ""])) := by
  have hmem : ∀ s : String, VALID_TITLES.contains s = true ↔
      s ∈ ["Mr", "Mrs", "Miss", "Ms", "Dr", "Drs", "Professor", "Lord",
        "Sir", "Lady", ""] := by
    intro s
    rw [VALID_TITLES, List.elem_iff]
  refine ⟨titleOf_eq_headD name, ?_, ?_, ?_, ?_⟩
  · constructor
    · rintro ⟨r, hr⟩
      by_contra hnot
      rw [create_customer, if_neg (by rw [hmem]; exact hnot)] at hr
      cases hr
    · intro hin
      rw [create_customer, if_pos ((hmem _).mpr hin)]
      exact ⟨_, rfl⟩
  · intro hnot
    rw [create_customer, if_neg (by rw [hmem]; exact hnot)]
  · rw [create_customer]
    rw [if_pos (by rw [hmem]; decide)]
    exact ⟨_, rfl⟩
  · intro number nm addr hget
    cases hcust : CustomerDAO.get db sortcode number with
    | none => exact absurd hcust hget
    | some c =>
      constructor
      · rintro ⟨r, hr⟩
        by_contra hnot
        rw [update_customer, hcust] at hr
        simp only at hr
        rw [if_neg (by rw [hmem]; exact hnot)] at hr
        cases hr
      · intro hin
        rw [update_customer, hcust]
        simp only
        rw [if_pos ((hmem _).mpr hin)]
        exact ⟨_, rfl⟩

/-- Witness for C6 at a database holding customer 7 and name "Mrs B". -/
theorem c6_witness :
    titleOf "Mrs B" = (pySplit "Mrs B").headD "" ∧
    ((∃ r, create_customer ⟨[⟨"987654", 7, "Mr A", "a", "", 500, "rd"⟩], [], []⟩
        "Mrs B" "addr" "1990-01-01" "987654" 500 "2026-10-12" "d" "t" = .ok r) ↔
      titleOf "Mrs B" ∈ ["Mr", "Mrs", "Miss", "Ms", "Dr", "Drs", "Professor",
        "Lord", "Sir", "Lady", ""]) ∧
    (titleOf "Mrs B" ∉ ["Mr", "Mrs", "Miss", "Ms", "Dr", "Drs", "Professor",
        "Lord", "Sir", "Lady", ""] →
      create_customer ⟨[⟨"987654", 7, "Mr A", "a", "", 500, "rd"⟩], [], []⟩
        "Mrs B" "addr" "1990-01-01" "987654" 500 "2026-10-12" "d" "t" =
        .error (.validationError ("Invalid title: \x27" ++ titleOf "Mrs B" ++ "\x27"))) ∧
    (∃ r, create_customer ⟨[⟨"987654", 7, "Mr A", "a", "", 500, "rd"⟩], [], []⟩
        "" "addr" "1990-01-01" "987654" 500 "2026-10-12" "d" "t" = .ok r) ∧
    (∀ number nm addr,
      CustomerDAO.get ⟨[⟨"987654", 7, "Mr A", "a", "", 500, "rd"⟩], [], []⟩
        "987654" number ≠ none →
      ((∃ r, update_customer ⟨[⟨"987654", 7, "Mr A", "a", "", 500, "rd"⟩], [], []⟩
          number (some nm) addr "987654" = .ok r) ↔
        titleOf nm ∈ ["Mr", "Mrs", "Miss", "Ms", "Dr", "Drs", "Professor",
          "Lord", "Sir", "Lady", ""])) :=
  c6_title_enumeration ⟨[⟨"987654", 7, "Mr A", "a", "", 500, "rd"⟩], [], []⟩
    "Mrs B" "addr" "1990-01-01" "987654" 500 "2026-10-12" "d" "t"

-- ═══════════════════════════════════════════════════════════
-- DAO key lemmas
-- ═══════════════════════════════════════════════════════════

lemma account_number_lt_next (db : DB) (sc : String) (a : Account)
    (ha : a ∈ db.accounts) (hsc : a.sortcode = sc) :
    a.number < AccountDAO.next_number db sc := by
  have hmem : a.number ∈
      (db.accounts.filter (fun x => x.sortcode == sc)).map Account.number :=
    List.mem_map_of_mem _ (List.mem_filter.mpr ⟨ha, by simp [hsc]⟩)
  have := foldr_max_le _ _ hmem
  unfold AccountDAO.next_number
  omega

lemma customer_number_lt_next (db : DB) (sc : String) (c : Customer)
    (hc : c ∈ db.customers) (hsc : c.sortcode = sc) :
    c.number < CustomerDAO.next_number db sc := by
  have hmem : c.number ∈
      (db.customers.filter (fun x => x.sortcode == sc)).map Customer.number :=
    List.mem_map_of_mem _ (List.mem_filter.mpr ⟨hc, by simp [hsc]⟩)
  have := foldr_max_le _ _ hmem
  unfold CustomerDAO.next_number
  omega

/-- Looking up the freshly allocated number after the INSERT finds exactly
the inserted account row. -/
lemma get_create_account_next (db : DB) (sc : String) (cn : Nat) (t : String)
    (ir : Int) (op : String) (od : Int) :
    AccountDAO.get
      (AccountDAO.create db sc (AccountDAO.next_number db sc) cn t ir op od)
      sc (AccountDAO.next_number db sc) =
      some ⟨sc, AccountDAO.next_number db sc, cn, t, ir, op, od, 0, 0⟩ := by
  unfold AccountDAO.get AccountDAO.create
  simp only
  rw [List.find?_append]
  have h1 : db.accounts.find?
      (fun a => a.sortcode == sc && a.number == AccountDAO.next_number db sc) =
      none := by
    rw [List.find?_eq_none]
    intro a ha
    simp only [Bool.and_eq_true, beq_iff_eq, not_and]
    intro hsc
    have := account_number_lt_next db sc a ha hsc
    omega
  rw [h1]
  simp [List.find?]

/-- Looking up the freshly allocated number after the INSERT finds exactly
the inserted customer row. -/
lemma get_create_customer_next (db : DB) (sc : String) (name address dob : String)
    (score : Nat) (rd : String) :
    CustomerDAO.get
      (CustomerDAO.create db sc (CustomerDAO.next_number db sc) name address dob
        score rd)
      sc (CustomerDAO.next_number db sc) =
      some ⟨sc, CustomerDAO.next_number db sc, name, address, dob, score, rd⟩ := by
  unfold CustomerDAO.get CustomerDAO.create
  simp only
  rw [List.find?_append]
  have h1 : db.customers.find?
      (fun c => c.sortcode == sc && c.number == CustomerDAO.next_number db sc) =
      none := by
    rw [List.find?_eq_none]
    intro c hc
    simp only [Bool.and_eq_true, beq_iff_eq, not_and]
    intro hsc
    have := customer_number_lt_next db sc c hc hsc
    omega
  rw [h1]
  simp [List.find?]

/-- find? by a key-only predicate commutes with mapping a key-preserving
row transformation. -/
lemma find?_key_map (f : Account → Account)
    (hs : ∀ a, (f a).sortcode = a.sortcode) (hn : ∀ a, (f a).number = a.number)
    (l : List Account) (sc : String) (n : Nat) :
    (l.map f).find? (fun x => x.sortcode == sc && x.number == n) =
      (l.find? (fun x => x.sortcode == sc && x.number == n)).map f := by
  induction l with
  | nil => rfl
  | cons a t ih =>
    by_cases hp : (a.sortcode == sc && a.number == n) = true
    · have e1 : (List.map f (a :: t)).find?
          (fun x => x.sortcode == sc && x.number == n) = some (f a) := by
        rw [List.map_cons]
        exact List.find?_cons_of_pos _ (by rw [hs a, hn a]; exact hp)
      have e2 : ((a :: t).find? (fun x => x.sortcode == sc && x.number == n)) =
          some a := List.find?_cons_of_pos _ hp
      rw [e1, e2]
      rfl
    · have e1 : (List.map f (a :: t)).find?
          (fun x => x.sortcode == sc && x.number == n) =
          (List.map f t).find? (fun x => x.sortcode == sc && x.number == n) := by
        rw [List.map_cons]
        exact List.find?_cons_of_neg _ (by rw [hs a, hn a]; exact hp)
      have e2 : ((a :: t).find? (fun x => x.sortcode == sc && x.number == n)) =
          t.find? (fun x => x.sortcode == sc && x.number == n) :=
        List.find?_cons_of_neg _ hp
      rw [e1, e2, ih]

/-- Reading any key after an update_balance returns the old row, with the two
balance fields overwritten when the key is the updated one. -/
lemma get_update_balance (db : DB) (sc : String) (n : Nat) (av ac : Int)
    (sc' : String) (n' : Nat) :
    AccountDAO.get (AccountDAO.update_balance db sc n av ac) sc' n' =
      (AccountDAO.get db sc' n').map (fun a =>
        if a.sortcode == sc && a.number == n then
          { a with available_balance := av, actual_balance := ac }
        else a) := by
  unfold AccountDAO.get AccountDAO.update_balance
  simp only
  exact find?_key_map _ (fun a => by split <;> rfl)
    (fun a => by split <;> rfl) _ _ _

/-- A row returned by AccountDAO.get carries the looked-up key. -/
lemma get_account_key {db : DB} {sc : String} {n : Nat} {a : Account}
    (h : AccountDAO.get db sc n = some a) : a.sortcode = sc ∧ a.number = n := by
  have := List.find?_some h
  simpa using this

lemma get_account_mem {db : DB} {sc : String} {n : Nat} {a : Account}
    (h : AccountDAO.get db sc n = some a) : a ∈ db.accounts :=
  List.mem_of_find?_eq_some h

-- Projection lemmas: which tables each store operation touches.

@[simp] lemma update_balance_customers (db : DB) (sc : String) (n : Nat)
    (av ac : Int) : (AccountDAO.update_balance db sc n av ac).customers =
      db.customers := rfl

@[simp] lemma update_balance_transactions (db : DB) (sc : String) (n : Nat)
    (av ac : Int) : (AccountDAO.update_balance db sc n av ac).transactions =
      db.transactions := rfl

@[simp] lemma audit_customers (db : DB) (sc : String) (n : Nat)
    (tt de : String) (am : Int) (d tm : String) :
    (_audit db sc n tt de am d tm).customers = db.customers := rfl

@[simp] lemma audit_accounts (db : DB) (sc : String) (n : Nat)
    (tt de : String) (am : Int) (d tm : String) :
    (_audit db sc n tt de am d tm).accounts = db.accounts := rfl

@[simp] lemma audit_transactions (db : DB) (sc : String) (n : Nat)
    (tt de : String) (am : Int) (d tm : String) :
    (_audit db sc n tt de am d tm).transactions =
      db.transactions ++ [⟨sc, n, d, tm, tt, de, am⟩] := rfl

@[simp] lemma get_account_audit (db : DB) (sc2 : String) (n2 : Nat)
    (tt de : String) (am : Int) (d tm : String) (sc : String) (n : Nat) :
    AccountDAO.get (_audit db sc2 n2 tt de am d tm) sc n =
      AccountDAO.get db sc n := rfl

@[simp] lemma get_customer_audit (db : DB) (sc2 : String) (n2 : Nat)
    (tt de : String) (am : Int) (d tm : String) (sc : String) (n : Nat) :
    CustomerDAO.get (_audit db sc2 n2 tt de am d tm) sc n =
      CustomerDAO.get db sc n := rfl

-- ═══════════════════════════════════════════════════════════
-- create_account success characterisation (shared by C5 and C9)
-- ═══════════════════════════════════════════════════════════

/-- What a successful create_account did: type was valid, customer existed,
the row was inserted under the freshly allocated number with defaulted rate
and limit and zero balances, one OCA audit entry was appended, and exactly
that row is returned. -/
lemma create_account_ok_spec {db : DB} {cn : Nat} {t : String}
    {ir od : Option Int} {sc today d tm : String} {db' : DB}
    {racc : Option Account}
    (h : create_account db cn t ir od sc today d tm = .ok (db', racc)) :
    VALID_ACCOUNT_TYPES.contains t = true ∧
    (∃ c, CustomerDAO.get db sc cn = some c) ∧
    racc = some ⟨sc, AccountDAO.next_number db sc, cn, t,
        ir.getD (match DEFAULT_RATES t with | some r => r.interest | none => 0),
        today,
        od.getD (match DEFAULT_RATES t with | some r => r.overdraft | none => 0),
        0, 0⟩ ∧
    db'.customers = db.customers ∧
    db'.accounts = db.accounts ++ [⟨sc, AccountDAO.next_number db sc, cn, t,
        ir.getD (match DEFAULT_RATES t with | some r => r.interest | none => 0),
        today,
        od.getD (match DEFAULT_RATES t with | some r => r.overdraft | none => 0),
        0, 0⟩] ∧
    db'.transactions = db.transactions ++
      [⟨sc, AccountDAO.next_number db sc, d, tm, "OCA",
        "Create account for cust " ++ toString cn, 0⟩] := by
  rw [create_account] at h
  cases hv : VALID_ACCOUNT_TYPES.contains t with
  | false =>
    rw [hv] at h
    simp only [Bool.not_false, if_true] at h
    cases h
  | true =>
    rw [hv] at h
    simp only [Bool.not_true, Bool.false_eq_true, if_false] at h
    cases hget : CustomerDAO.get db sc cn with
    | none => rw [hget] at h; cases h
    | some c =>
      rw [hget] at h
      simp only [Except.ok.injEq, Prod.mk.injEq] at h
      obtain ⟨hdb, hracc⟩ := h
      refine ⟨rfl, ⟨c, rfl⟩, ?_, ?_, ?_, ?_⟩
      · rw [← hracc, get_account_audit, get_create_account_next]
      · rw [← hdb]; rfl
      · rw [← hdb]; rfl
      · rw [← hdb]; rfl

-- ═══════════════════════════════════════════════════════════
-- C9: per-type defaults on account creation
-- ═══════════════════════════════════════════════════════════

/-- C9: create_account with no supplied rate or limit defaults the interest
rate per account type (ISA 250, SAVING 150, LOAN 750, MORTGAGE 450,
CURRENT 0), the overdraft limit to 0, and initialises both balances to
exactly zero. -/
theorem c9_create_account_defaults (db : DB) (cn : Nat) (t : String)
    (sc today d tm : String) (db' : DB) (racc : Option Account) (acc : Account)
    (h : create_account db cn t none none sc today d tm = .ok (db', racc))
    (hacc : racc = some acc) :
    acc.available_balance = 0 ∧ acc.actual_balance = 0 ∧
    acc.overdraft_limit = 0 ∧
    (t = "ISA" → acc.interest_rate = 250) ∧
    (t = "SAVING" → acc.interest_rate = 150) ∧
    (t = "LOAN" → acc.interest_rate = 750) ∧
    (t = "MORTGAGE" → acc.interest_rate = 450) ∧
    (t = "CURRENT" → acc.interest_rate = 0) := by
  obtain ⟨hv, _, hracc, _, _, _⟩ := create_account_ok_spec h
  rw [hracc] at hacc
  rw [Option.some.injEq] at hacc
  subst hacc
  have hod : (match DEFAULT_RATES t with | some r => r.overdraft | none => 0) = 0 := by
    have : t ∈ VALID_ACCOUNT_TYPES := List.elem_iff.mp hv
    simp only [VALID_ACCOUNT_TYPES, List.mem_cons, List.not_mem_nil, or_false] at this
    rcases this with rfl | rfl | rfl | rfl | rfl <;> rfl
  refine ⟨rfl, rfl, by simpa using hod, ?_, ?_, ?_, ?_, ?_⟩ <;>
    rintro rfl <;> rfl

/-- Witness for C9: an ISA opened for the sole customer of a one-customer
database gets rate 250, limit 0 and zero balances. -/
theorem c9_witness :
    (⟨"987654", 1, 1, "ISA", 250, "2026-10-12", 0, 0, 0⟩ :
      Account).available_balance = 0 ∧
    (⟨"987654", 1, 1, "ISA", 250, "2026-10-12", 0, 0, 0⟩ :
      Account).actual_balance = 0 ∧
    (⟨"987654", 1, 1, "ISA", 250, "2026-10-12", 0, 0, 0⟩ :
      Account).overdraft_limit = 0 ∧
    ("ISA" = "ISA" → (⟨"987654", 1, 1, "ISA", 250, "2026-10-12", 0, 0, 0⟩ :
      Account).interest_rate = 250) ∧
    ("ISA" = "SAVING" → (⟨"987654", 1, 1, "ISA", 250, "2026-10-12", 0, 0, 0⟩ :
      Account).interest_rate = 150) ∧
    ("ISA" = "LOAN" → (⟨"987654", 1, 1, "ISA", 250, "2026-10-12", 0, 0, 0⟩ :
      Account).interest_rate = 750) ∧
    ("ISA" = "MORTGAGE" → (⟨"987654", 1, 1, "ISA", 250, "2026-10-12", 0, 0, 0⟩ :
      Account).interest_rate = 450) ∧
    ("ISA" = "CURRENT" → (⟨"987654", 1, 1, "ISA", 250, "2026-10-12", 0, 0, 0⟩ :
      Account).interest_rate = 0) :=
  c9_create_account_defaults
    ⟨[⟨"987654", 1, "Mr A", "a", "", 500, "rd"⟩], [], []⟩ 1 "ISA"
    "987654" "2026-10-12" "d" "t"
    ⟨[⟨"987654", 1, "Mr A", "a", "", 500, "rd"⟩],
     [⟨"987654", 1, 1, "ISA", 250, "2026-10-12", 0, 0, 0⟩],
     [⟨"987654", 1, "d", "t", "OCA", "Create account for cust 1", 0⟩]⟩
    (some ⟨"987654", 1, 1, "ISA", 250, "2026-10-12", 0, 0, 0⟩)
    ⟨"987654", 1, 1, "ISA", 250, "2026-10-12", 0, 0, 0⟩
    rfl rfl

-- ═══════════════════════════════════════════════════════════
-- The twin-balance invariant (C5)
-- ═══════════════════════════════════════════════════════════



lemma balanced_update_balance {db : DB} {sc : String} {n : Nat} {av ac : Int}
    (h : balanced db) (heq : av = ac) :
    balanced (AccountDAO.update_balance db sc n av ac) := by
  intro a ha
  simp only [AccountDAO.update_balance] at ha
  rw [List.mem_map] at ha
  obtain ⟨b, hb, rfl⟩ := ha
  split
  · exact heq
  · exact h b hb

lemma balanced_create_account {db : DB} {sc : String} {n cn : Nat} {t : String}
    {ir : Int} {op : String} {od : Int} (h : balanced db) :
    balanced (AccountDAO.create db sc n cn t ir op od) := by
  intro a ha
  simp only [AccountDAO.create] at ha
  rw [List.mem_append] at ha
  rcases ha with ha | ha
  · exact h a ha
  · rw [List.mem_singleton] at ha
    subst ha
    rfl

lemma balanced_delete_account {db : DB} {sc : String} {n : Nat}
    (h : balanced db) : balanced (AccountDAO.delete db sc n) := by
  intro a ha
  simp only [AccountDAO.delete] at ha
  exact h a (List.mem_of_mem_filter ha)

lemma balanced_account_update {db : DB} {sc : String} {n : Nat}
    {ot : Option String} {oir ood : Option Int} (h : balanced db) :
    balanced (AccountDAO.update db sc n ot oir ood) := by
  intro a ha
  unfold AccountDAO.update at ha
  split at ha
  · exact h a ha
  · simp only at ha
    rw [List.mem_map] at ha
    obtain ⟨b, hb, rfl⟩ := ha
    split
    · exact h b hb
    · exact h b hb

@[simp] lemma customer_update_accounts (db : DB) (sc : String) (n : Nat)
    (nm ad : Option String) : (CustomerDAO.update db sc n nm ad).accounts =
      db.accounts := by
  unfold CustomerDAO.update
  split <;> rfl

@[simp] lemma customer_create_accounts (db : DB) (sc : String) (n : Nat)
    (nm ad dob : String) (score : Nat) (rd : String) :
    (CustomerDAO.create db sc n nm ad dob score rd).accounts = db.accounts := rfl

@[simp] lemma customer_delete_accounts (db : DB) (sc : String) (n : Nat) :
    (CustomerDAO.delete db sc n).accounts = db.accounts := rfl

-- ═══════════════════════════════════════════════════════════
-- Success characterisations of the remaining services
-- ═══════════════════════════════════════════════════════════

/-- What a successful create_customer did: the title was valid, the row was
inserted under the freshly allocated number, one OCC audit entry (account
field 0) was appended, and exactly that row is returned. -/
lemma create_customer_ok_spec {db : DB} {name address dob sc : String}
    {score : Nat} {today d tm : String} {db' : DB} {rc : Option Customer}
    (h : create_customer db name address dob sc score today d tm =
      .ok (db', rc)) :
    VALID_TITLES.contains (titleOf name) = true ∧
    db'.customers = db.customers ++
      [⟨sc, CustomerDAO.next_number db sc, name, address, dob, score, today⟩] ∧
    db'.accounts = db.accounts ∧
    db'.transactions = db.transactions ++
      [⟨sc, 0, d, tm, "OCC",
        "Create customer " ++ toString (CustomerDAO.next_number db sc), 0⟩] ∧
    rc = some ⟨sc, CustomerDAO.next_number db sc, name, address, dob, score,
      today⟩ := by
  rw [create_customer] at h
  cases hv : VALID_TITLES.contains (titleOf name) with
  | false => rw [hv] at h; simp only [Bool.false_eq_true, if_false] at h; cases h
  | true =>
    rw [hv] at h
    simp only [if_true, Except.ok.injEq, Prod.mk.injEq] at h
    obtain ⟨hdb, hrc⟩ := h
    refine ⟨rfl, ?_, ?_, ?_, ?_⟩
    · rw [← hdb]; rfl
    · rw [← hdb]; rfl
    · rw [← hdb]; rfl
    · rw [← hrc, get_customer_audit, get_create_customer_next]

/-- A successful update_customer leaves the accounts table untouched. -/
lemma update_customer_ok_accounts {db : DB} {n : Nat} {nm ad : Option String}
    {sc : String} {db' : DB} {rc : Option Customer}
    (h : update_customer db n nm ad sc = .ok (db', rc)) :
    db'.accounts = db.accounts := by
  rw [update_customer.eq_def] at h
  cases hget : CustomerDAO.get db sc n with
  | none => rw [hget] at h; cases h
  | some c =>
    rw [hget] at h
    cases nm with
    | none =>
      simp only [Except.ok.injEq, Prod.mk.injEq] at h
      rw [← h.1]
      simp
    | some s =>
      simp only [] at h
      by_cases hv : VALID_TITLES.contains (titleOf s) = true
      · rw [if_pos hv] at h
        simp only [Except.ok.injEq, Prod.mk.injEq] at h
        rw [← h.1]
        simp
      · rw [if_neg hv] at h
        cases h

/-- A successful update_account only rewrites type / rate / limit fields. -/
lemma update_account_ok_spec {db : DB} {n : Nat} {ot : Option String}
    {oir ood : Option Int} {sc : String} {db' : DB} {ra : Option Account}
    (h : update_account db n ot oir ood sc = .ok (db', ra)) :
    db' = AccountDAO.update db sc n ot oir ood := by
  rw [update_account.eq_def] at h
  cases hget : AccountDAO.get db sc n with
  | none => rw [hget] at h; cases h
  | some a =>
    rw [hget] at h
    cases ot with
    | none =>
      simp only [Except.ok.injEq, Prod.mk.injEq] at h
      exact h.1.symm
    | some t =>
      simp only [] at h
      by_cases hv : (!VALID_ACCOUNT_TYPES.contains t) = true
      · rw [if_pos hv] at h
        cases h
      · rw [if_neg hv] at h
        simp only [Except.ok.injEq, Prod.mk.injEq] at h
        exact h.1.symm

/-- What a successful delete_account did: the account existed, its row is
gone, and one ODA audit entry tagged with its number was appended. -/
lemma delete_account_ok_spec {db : DB} {n : Nat} {sc d tm : String} {db' : DB}
    {r : Bool} (h : delete_account db n sc d tm = .ok (db', r)) :
    (∃ a, AccountDAO.get db sc n = some a) ∧
    db'.customers = db.customers ∧
    db'.accounts = (AccountDAO.delete db sc n).accounts ∧
    db'.transactions = db.transactions ++
      [⟨sc, n, d, tm, "ODA", "Delete account " ++ toString n, 0⟩] := by
  rw [delete_account] at h
  cases hget : AccountDAO.get db sc n with
  | none => rw [hget] at h; cases h
  | some a =>
    rw [hget] at h
    simp only [Except.ok.injEq, Prod.mk.injEq] at h
    obtain ⟨hdb, _⟩ := h
    exact ⟨⟨a, rfl⟩, by rw [← hdb]; rfl, by rw [← hdb]; rfl, by rw [← hdb]; rfl⟩

lemma deleteAccountsLoop_balanced {nums : List Nat} {sc d tm : String} :
    ∀ {db db2 : DB}, deleteAccountsLoop db nums sc d tm = .ok db2 →
      balanced db → balanced db2 := by
  induction nums with
  | nil =>
    intro db db2 h hb
    rw [deleteAccountsLoop] at h
    cases h
    exact hb
  | cons n rest ih =>
    intro db db2 h hb
    rw [deleteAccountsLoop] at h
    cases hdel : delete_account db n sc d tm with
    | error e => rw [hdel] at h; cases h
    | ok p =>
      rw [hdel] at h
      refine ih h ?_
      obtain ⟨_, _, hacc, _⟩ := delete_account_ok_spec hdel
      intro a ha
      rw [hacc] at ha
      exact balanced_delete_account hb a ha

/-- A successful delete_customer leaves the accounts table equal to the
cascaded-delete result, which is balanced whenever the input was. -/
lemma delete_customer_ok_balanced {db : DB} {n : Nat} {sc d tm : String}
    {db' : DB} {r : Bool}
    (h : delete_customer db n sc d tm = .ok (db', r)) (hb : balanced db) :
    balanced db' := by
  rw [delete_customer] at h
  cases hget : CustomerDAO.get db sc n with
  | none => rw [hget] at h; cases h
  | some c =>
    rw [hget] at h
    simp only at h
    cases hloop : deleteAccountsLoop db
        ((AccountDAO.get_by_customer db sc n
          MAX_ACCOUNTS_PER_QUERY).map Account.number) sc d tm with
    | error e => rw [hloop] at h; cases h
    | ok dbL =>
      rw [hloop] at h
      simp only [Except.ok.injEq, Prod.mk.injEq] at h
      obtain ⟨hdb, _⟩ := h
      have hbL := deleteAccountsLoop_balanced hloop hb
      intro a ha
      rw [← hdb] at ha
      simp only [audit_accounts, customer_delete_accounts] at ha
      exact hbL a ha

/-- A successful transfer_funds writes equal deltas to both rows it touches,
so it preserves the invariant. -/
lemma transfer_funds_ok_balanced {db : DB} {fn tn : Nat} {amount : Int}
    {sc d tm : String} {db' : DB} {r : Int × Int}
    (h : transfer_funds db fn tn amount sc d tm = .ok (db', r))
    (hb : balanced db) : balanced db' := by
  rw [transfer_funds] at h
  cases hf : AccountDAO.get db sc fn with
  | none => rw [hf] at h; cases h
  | some f =>
    rw [hf] at h
    cases ht : AccountDAO.get db sc tn with
    | none => rw [ht] at h; cases h
    | some t =>
      rw [ht] at h
      simp only [Except.ok.injEq, Prod.mk.injEq] at h
      obtain ⟨hdb, _⟩ := h
      have hfb : f.available_balance = f.actual_balance :=
        hb f (get_account_mem hf)
      have htb : t.available_balance = t.actual_balance :=
        hb t (get_account_mem ht)
      intro a ha
      rw [← hdb] at ha
      simp only [audit_accounts] at ha
      exact balanced_update_balance
        (balanced_update_balance hb (by omega)) (by omega) a ha

/-- A successful debit_credit writes the identical signed delta to both
balance fields, so it preserves the invariant. -/
lemma debit_credit_ok_balanced {db : DB} {n : Nat} {amount : Int}
    {is_debit : Bool} {sc d tm : String} {db' : DB} {r : Int × Int}
    (h : debit_credit db n amount is_debit sc d tm = .ok (db', r))
    (hb : balanced db) : balanced db' := by
  rw [debit_credit] at h
  cases hget : AccountDAO.get db sc n with
  | none => rw [hget] at h; cases h
  | some acc =>
    rw [hget] at h
    simp only [] at h
    by_cases h1 : (is_debit &&
        (acc.account_type == "MORTGAGE" || acc.account_type == "LOAN")) = true
    · rw [if_pos h1] at h
      cases h
    · rw [if_neg h1] at h
      by_cases h2 : (is_debit && decide (acc.available_balance +
          (if is_debit then -amount else amount) < 0)) = true
      · rw [if_pos h2] at h
        cases h
      · rw [if_neg h2] at h
        simp only [Except.ok.injEq, Prod.mk.injEq] at h
        obtain ⟨hdb, _⟩ := h
        have hab : acc.available_balance = acc.actual_balance :=
          hb acc (get_account_mem hget)
        intro a ha
        rw [← hdb] at ha
        simp only [audit_accounts] at ha
        refine balanced_update_balance hb ?_ a ha
        rw [hab]

/-- A successful create_account appends a zero-balance row, preserving the
invariant. -/
lemma create_account_ok_balanced {db : DB} {cn : Nat} {t : String}
    {ir od : Option Int} {sc today d tm : String} {db' : DB}
    {ra : Option Account}
    (h : create_account db cn t ir od sc today d tm = .ok (db', ra))
    (hb : balanced db) : balanced db' := by
  obtain ⟨_, _, _, _, hacc, _⟩ := create_account_ok_spec h
  intro a ha
  rw [hacc, List.mem_append] at ha
  rcases ha with ha | ha
  · exact hb a ha
  · rw [List.mem_singleton] at ha
    subst ha
    rfl

-- ═══════════════════════════════════════════════════════════
-- The engine as a state machine (C5)
-- ═══════════════════════════════════════════════════════════



lemma runOp_balanced (op : Op) {db : DB} (hb : balanced db) :
    balanced (runOp op db) := by
  cases op with
  | opCreateCustomer name address dob sc score today d tm =>
    simp only [runOp]
    cases hr : create_customer db name address dob sc score today d tm with
    | error e => exact hb
    | ok p =>
      obtain ⟨db', r⟩ := p
      obtain ⟨_, _, hacc, _, _⟩ := create_customer_ok_spec hr
      intro a ha
      rw [hacc] at ha
      exact hb a ha
  | opCreateAccount cn t ir od sc today d tm =>
    simp only [runOp]
    cases hr : create_account db cn t ir od sc today d tm with
    | error e => exact hb
    | ok p =>
      obtain ⟨db', r⟩ := p
      exact create_account_ok_balanced hr hb
  | opUpdateCustomer n nm ad sc =>
    simp only [runOp]
    cases hr : update_customer db n nm ad sc with
    | error e => exact hb
    | ok p =>
      obtain ⟨db', r⟩ := p
      intro a ha
      rw [update_customer_ok_accounts hr] at ha
      exact hb a ha
  | opUpdateAccount n t ir od sc =>
    simp only [runOp]
    cases hr : update_account db n t ir od sc with
    | error e => exact hb
    | ok p =>
      obtain ⟨db', r⟩ := p
      rw [update_account_ok_spec hr]
      exact balanced_account_update hb
  | opDeleteAccount n sc d tm =>
    simp only [runOp]
    cases hr : delete_account db n sc d tm with
    | error e => exact hb
    | ok p =>
      obtain ⟨db', r⟩ := p
      obtain ⟨_, _, hacc, _⟩ := delete_account_ok_spec hr
      intro a ha
      rw [hacc] at ha
      exact balanced_delete_account hb a ha
  | opDeleteCustomer n sc d tm =>
    simp only [runOp]
    cases hr : delete_customer db n sc d tm with
    | error e => exact hb
    | ok p =>
      obtain ⟨db', r⟩ := p
      exact delete_customer_ok_balanced hr hb
  | opDebitCredit n amount is_debit sc d tm =>
    simp only [runOp]
    cases hr : debit_credit db n amount is_debit sc d tm with
    | error e => exact hb
    | ok p =>
      obtain ⟨db', r⟩ := p
      exact debit_credit_ok_balanced hr hb
  | opTransferFunds fn tn amount sc d tm =>
    simp only [runOp]
    cases hr : transfer_funds db fn tn amount sc d tm with
    | error e => exact hb
    | ok p =>
      obtain ⟨db', r⟩ := p
      exact transfer_funds_ok_balanced hr hb

lemma runOps_balanced (ops : List Op) :
    ∀ {db : DB}, balanced db → balanced (runOps ops db) := by
  induction ops with
  | nil => intro db hb; exact hb
  | cons op rest ih =>
    intro db hb
    exact ih (runOp_balanced op hb)

/-- C5: accounts are created with both balance fields zero, and every engine
operation moves available and actual balance by the identical delta, so a
store in which every account has its two balances equal keeps that invariant
under any sequence of engine operations. -/
theorem c5_twin_balance_invariant :
    (∀ (db : DB) (cn : Nat) (t : String) (ir od : Option Int)
        (sc today d tm : String) (db' : DB) (ra : Option Account)
        (acc : Account),
      create_account db cn t ir od sc today d tm = .ok (db', ra) →
      ra = some acc →
      acc.available_balance = 0 ∧ acc.actual_balance = 0) ∧
    (∀ (db : DB) (ops : List Op), balanced db → balanced (runOps ops db)) := by
  constructor
  · intro db cn t ir od sc today d tm db' ra acc h hacc
    obtain ⟨_, _, hra, _, _, _⟩ := create_account_ok_spec h
    rw [hra, Option.some.injEq] at hacc
    subst hacc
    exact ⟨rfl, rfl⟩
  · intro db ops hb
    exact runOps_balanced ops hb

/-- Witness for C5: a concrete creation run plus a concrete four-operation
history starting from the empty store. -/
theorem c5_witness :
    ((⟨"987654", 1, 1, "ISA", 250, "2026-10-12", 0, 0, 0⟩ :
        Account).available_balance = 0 ∧
      (⟨"987654", 1, 1, "ISA", 250, "2026-10-12", 0, 0, 0⟩ :
        Account).actual_balance = 0) ∧
    balanced (runOps
      [Op.opCreateCustomer "Mr A" "addr" "1990-01-01" "987654" 500 "td" "d" "t",
       Op.opCreateAccount 1 "CURRENT" none none "987654" "td" "d" "t",
       Op.opDebitCredit 1 2500 false "987654" "d" "t",
       Op.opTransferFunds 1 1 700 "987654" "d" "t"] emptyDB) :=
  ⟨c5_twin_balance_invariant.1
      ⟨[⟨"987654", 1, "Mr A", "a", "", 500, "rd"⟩], [], []⟩ 1 "ISA" none none
      "987654" "2026-10-12" "d" "t"
      ⟨[⟨"987654", 1, "Mr A", "a", "", 500, "rd"⟩],
       [⟨"987654", 1, 1, "ISA", 250, "2026-10-12", 0, 0, 0⟩],
       [⟨"987654", 1, "d", "t", "OCA", "Create account for cust 1", 0⟩]⟩
      (some ⟨"987654", 1, 1, "ISA", 250, "2026-10-12", 0, 0, 0⟩)
      ⟨"987654", 1, 1, "ISA", 250, "2026-10-12", 0, 0, 0⟩ rfl rfl,
   c5_twin_balance_invariant.2 emptyDB
      [Op.opCreateCustomer "Mr A" "addr" "1990-01-01" "987654" 500 "td" "d" "t",
       Op.opCreateAccount 1 "CURRENT" none none "987654" "td" "d" "t",
       Op.opDebitCredit 1 2500 false "987654" "d" "t",
       Op.opTransferFunds 1 1 700 "987654" "d" "t"]
      (fun a ha => absurd ha (List.not_mem_nil a))⟩

-- ═══════════════════════════════════════════════════════════
-- C3 / C4: debit_credit
-- ═══════════════════════════════════════════════════════════

/-- Reduction of debit_credit once the account lookup is known. -/
lemma debit_credit_eq_of_get {db : DB} {sc : String} {n : Nat} {acc : Account}
    (hget : AccountDAO.get db sc n = some acc) (amount : Int)
    (is_debit : Bool) (d tm : String) :
    debit_credit db n amount is_debit sc d tm =
      (if is_debit && (acc.account_type == "MORTGAGE" ||
          acc.account_type == "LOAN") then
        .error (.validationError "Cannot debit MORTGAGE/LOAN account")
      else if is_debit && decide (acc.available_balance +
          (if is_debit then -amount else amount) < 0) then
        .error (.insufficientFunds "Insufficient funds for debit")
      else
        .ok (_audit (AccountDAO.update_balance db sc n
              (acc.available_balance + (if is_debit then -amount else amount))
              (acc.actual_balance + (if is_debit then -amount else amount)))
            sc n (if is_debit then "DEB" else "CRE")
            ((if is_debit then "Debit " else "Credit ") ++ toString amount)
            |if is_debit then -amount else amount| d tm,
          acc.available_balance + (if is_debit then -amount else amount),
          acc.actual_balance + (if is_debit then -amount else amount))) := by
  rw [debit_credit, hget]

/-- C3: a debit of a non-negative amount from an existing account fails with
ValidationError when the account type is LOAN or MORTGAGE regardless of
balance; otherwise it fails with InsufficientFunds exactly when
available_balance - amount < 0 (the overdraft limit is never consulted) and
succeeds otherwise; on either error the unit of work commits no change at
all (no balance write, no audit row). -/
theorem c3_debit_error_cases (db : DB) (n : Nat) (amount : Int)
    (sc d tm : String) (acc : Account)
    (hget : AccountDAO.get db sc n = some acc) (hamt : 0 ≤ amount) :
    ((acc.account_type = "LOAN" ∨ acc.account_type = "MORTGAGE") →
      debit_credit db n amount true sc d tm =
        .error (.validationError "Cannot debit MORTGAGE/LOAN account")) ∧
    (acc.account_type ≠ "LOAN" → acc.account_type ≠ "MORTGAGE" →
      ((acc.available_balance - amount < 0 →
        debit_credit db n amount true sc d tm =
          .error (.insufficientFunds "Insufficient funds for debit")) ∧
       (0 ≤ acc.available_balance - amount →
        ∃ db' r, debit_credit db n amount true sc d tm = .ok (db', r)))) ∧
    (∀ e, debit_credit db n amount true sc d tm = .error e →
      runOp (Op.opDebitCredit n amount true sc d tm) db = db) := by
  have hred := debit_credit_eq_of_get hget amount true d tm
  refine ⟨?_, ?_, ?_⟩
  · intro htype
    rw [hred]
    have hc1 : (true && (acc.account_type == "MORTGAGE" ||
        acc.account_type == "LOAN")) = true := by
      rcases htype with h | h <;> simp [h]
    rw [if_pos hc1]
  · intro hL hM
    have hc1 : ¬ ((true && (acc.account_type == "MORTGAGE" ||
        acc.account_type == "LOAN")) = true) := by
      simp [hL, hM]
    constructor
    · intro hlow
      rw [hred, if_neg hc1, if_pos ?_]
      simp only [eq_self_iff_true, if_true, Bool.true_and, decide_eq_true_eq]
      omega
    · intro hhigh
      rw [hred, if_neg hc1, if_neg ?_]
      · exact ⟨_, _, rfl⟩
      · simp only [eq_self_iff_true, if_true, Bool.true_and, decide_eq_true_eq]
        omega
  · intro e herr
    simp only [runOp]
    rw [herr]

/-- Witness for C3: on a CURRENT account with balance 5000, a debit of 6000
fails with InsufficientFunds. -/
theorem c3_witness :
    debit_credit ⟨[], [⟨"987654", 1, 1, "CURRENT", 0, "", 0, 5000, 5000⟩], []⟩
      1 6000 true "987654" "d" "t" =
      .error (.insufficientFunds "Insufficient funds for debit") :=
  ((c3_debit_error_cases
      ⟨[], [⟨"987654", 1, 1, "CURRENT", 0, "", 0, 5000, 5000⟩], []⟩
      1 6000 "987654" "d" "t" ⟨"987654", 1, 1, "CURRENT", 0, "", 0, 5000, 5000⟩
      rfl (by decide)).2.1 (by decide) (by decide)).1 (by decide)

/-- C4: a successful debit_credit of a non-negative amount is
balance-additive — available moves by -amount (debit) or +amount (credit),
actual moves by the identical delta (so the two stay equal whenever they
started equal) — appends exactly one DEB/CRE audit entry carrying the
absolute amount, persists the new balances, and returns them. -/
theorem c4_debit_credit_additive (db : DB) (n : Nat) (amount : Int)
    (is_debit : Bool) (sc d tm : String) (acc : Account) (db' : DB)
    (av ac : Int)
    (hget : AccountDAO.get db sc n = some acc) (hamt : 0 ≤ amount)
    (h : debit_credit db n amount is_debit sc d tm = .ok (db', (av, ac))) :
    av = acc.available_balance + (if is_debit then -amount else amount) ∧
    ac = acc.actual_balance + (if is_debit then -amount else amount) ∧
    (acc.available_balance = acc.actual_balance → av = ac) ∧
    db'.transactions = db.transactions ++
      [⟨sc, n, d, tm, (if is_debit then "DEB" else "CRE"),
        ((if is_debit then "Debit " else "Credit ") ++ toString amount),
        amount⟩] ∧
    (∃ acc2, AccountDAO.get db' sc n = some acc2 ∧
      acc2.available_balance = av ∧ acc2.actual_balance = ac) := by
  have habs : |if is_debit then -amount else amount| = amount := by
    cases is_debit with
    | false => simpa using abs_of_nonneg hamt
    | true =>
      simp only [eq_self_iff_true, if_true]
      rw [abs_neg]
      exact abs_of_nonneg hamt
  rw [debit_credit_eq_of_get hget amount is_debit d tm] at h
  by_cases h1 : (is_debit && (acc.account_type == "MORTGAGE" ||
      acc.account_type == "LOAN")) = true
  · rw [if_pos h1] at h; cases h
  · rw [if_neg h1] at h
    by_cases h2 : (is_debit && decide (acc.available_balance +
        (if is_debit then -amount else amount) < 0)) = true
    · rw [if_pos h2] at h; cases h
    · rw [if_neg h2] at h
      simp only [Except.ok.injEq, Prod.mk.injEq] at h
      obtain ⟨hdb, hav, hac⟩ := h
      obtain ⟨hsc, hn⟩ := get_account_key hget
      refine ⟨hav.symm, hac.symm, ?_, ?_, ?_⟩
      · intro hbal
        rw [← hav, ← hac, hbal]
      · rw [← hdb]
        simp only [audit_transactions, update_balance_transactions, habs]
      · refine ⟨{ acc with
            available_balance := acc.available_balance +
              (if is_debit then -amount else amount),
            actual_balance := acc.actual_balance +
              (if is_debit then -amount else amount) }, ?_, hav, hac⟩
        rw [← hdb, get_account_audit, get_update_balance, hget]
        simp [hsc, hn]

/-- Witness for C4: crediting 2500 to a zero-balance CURRENT account. -/
theorem c4_witness :
    (2500 : Int) = (0 : Int) + (if false then -(2500 : Int) else (2500 : Int)) ∧
    (2500 : Int) = (0 : Int) + (if false then -(2500 : Int) else (2500 : Int)) ∧
    ((0 : Int) = (0 : Int) → (2500 : Int) = (2500 : Int)) ∧
    (DB.transactions
      ⟨[], [⟨"987654", 1, 1, "CURRENT", 0, "", 0, 2500, 2500⟩],
       [⟨"987654", 1, "d", "t", "CRE", "Credit 2500", 2500⟩]⟩) =
      (DB.transactions ⟨[], [⟨"987654", 1, 1, "CURRENT", 0, "", 0, 0, 0⟩], []⟩) ++
      [⟨"987654", 1, "d", "t", (if false then "DEB" else "CRE"),
        ((if false then "Debit " else "Credit ") ++ toString (2500 : Int)),
        2500⟩] ∧
    (∃ acc2, AccountDAO.get
        ⟨[], [⟨"987654", 1, 1, "CURRENT", 0, "", 0, 2500, 2500⟩],
         [⟨"987654", 1, "d", "t", "CRE", "Credit 2500", 2500⟩]⟩
        "987654" 1 = some acc2 ∧
      acc2.available_balance = 2500 ∧ acc2.actual_balance = 2500) :=
  c4_debit_credit_additive
    ⟨[], [⟨"987654", 1, 1, "CURRENT", 0, "", 0, 0, 0⟩], []⟩ 1 2500 false
    "987654" "d" "t" ⟨"987654", 1, 1, "CURRENT", 0, "", 0, 0, 0⟩
    ⟨[], [⟨"987654", 1, 1, "CURRENT", 0, "", 0, 2500, 2500⟩],
     [⟨"987654", 1, "d", "t", "CRE", "Credit 2500", 2500⟩]⟩
    2500 2500 rfl (by decide) rfl

-- ═══════════════════════════════════════════════════════════
-- C2 / C10: transfer_funds
-- ═══════════════════════════════════════════════════════════

/-- Reduction of transfer_funds once both account lookups are known.  Both
rows are read before either write, so the destination snapshot predates the
source update. -/
lemma transfer_funds_eq_of_get {db : DB} {sc : String} {fn tn : Nat}
    {f t : Account} (hf : AccountDAO.get db sc fn = some f)
    (ht : AccountDAO.get db sc tn = some t) (amount : Int) (d tm : String) :
    transfer_funds db fn tn amount sc d tm =
      .ok (_audit (_audit
            (AccountDAO.update_balance
              (AccountDAO.update_balance db sc fn
                (f.available_balance - amount) (f.actual_balance - amount))
              sc tn (t.available_balance + amount) (t.actual_balance + amount))
            sc fn "TFR" ("Transfer to " ++ toString tn) amount d tm)
          sc tn "TFR" ("Transfer from " ++ toString fn) amount d tm,
        f.actual_balance - amount, t.actual_balance + amount) := by
  rw [transfer_funds, hf, ht]

/-- C2 (amended to distinct accounts): transfer_funds between two distinct
existing accounts succeeds for every amount with no sufficiency or overdraft
check, subtracts the amount from both balance fields of the source, adds it
to both fields of the destination, appends exactly two TFR audit entries
carrying the transfer amount and naming the counterpart account, and returns
both post-operation actual balances; a missing account raises
AccountNotFound distinguishing From-account from To-account. -/
theorem c2_transfer_funds (db : DB) (fn tn : Nat) (amount : Int)
    (sc d tm : String) (hne : fn ≠ tn) :
    (∀ f t, AccountDAO.get db sc fn = some f →
      AccountDAO.get db sc tn = some t →
      ∃ db', transfer_funds db fn tn amount sc d tm =
          .ok (db', f.actual_balance - amount, t.actual_balance + amount) ∧
        (∃ f2, AccountDAO.get db' sc fn = some f2 ∧
          f2.available_balance = f.available_balance - amount ∧
          f2.actual_balance = f.actual_balance - amount) ∧
        (∃ t2, AccountDAO.get db' sc tn = some t2 ∧
          t2.available_balance = t.available_balance + amount ∧
          t2.actual_balance = t.actual_balance + amount) ∧
        db'.transactions = db.transactions ++
          [⟨sc, fn, d, tm, "TFR", "Transfer to " ++ toString tn, amount⟩,
           ⟨sc, tn, d, tm, "TFR", "Transfer from " ++ toString fn, amount⟩]) ∧
    (AccountDAO.get db sc fn = none →
      transfer_funds db fn tn amount sc d tm =
        .error (.accountNotFound
          ("From-account " ++ toString fn ++ " not found"))) ∧
    (∀ f, AccountDAO.get db sc fn = some f →
      AccountDAO.get db sc tn = none →
      transfer_funds db fn tn amount sc d tm =
        .error (.accountNotFound
          ("To-account " ++ toString tn ++ " not found"))) := by
  refine ⟨?_, ?_, ?_⟩
  · intro f t hf ht
    obtain ⟨hfsc, hfn⟩ := get_account_key hf
    obtain ⟨htsc, htn⟩ := get_account_key ht
    refine ⟨_, transfer_funds_eq_of_get hf ht amount d tm, ?_, ?_, ?_⟩
    · refine ⟨{ f with
          available_balance := f.available_balance - amount,
          actual_balance := f.actual_balance - amount }, ?_, rfl, rfl⟩
      rw [get_account_audit, get_account_audit, get_update_balance,
        get_update_balance, hf]
      simp [hfsc, hfn, hne]
    · refine ⟨{ t with
          available_balance := t.available_balance + amount,
          actual_balance := t.actual_balance + amount }, ?_, rfl, rfl⟩
      have hne2 : tn ≠ fn := fun hx => hne hx.symm
      rw [get_account_audit, get_account_audit, get_update_balance,
        get_update_balance, ht]
      simp [htsc, htn, hne2]
    · simp only [audit_transactions, update_balance_transactions,
        List.append_assoc]
      rfl
  · intro hf
    rw [transfer_funds, hf]
  · intro f hf ht
    rw [transfer_funds, hf, ht]

/-- Witness for C2 at the spec example: two accounts with balances 5000 and
0; transferring 10000 succeeds and leaves the source at -5000. -/
theorem c2_witness :
    (∀ f t, AccountDAO.get
        ⟨[], [⟨"987654", 1, 1, "CURRENT", 0, "", 0, 5000, 5000⟩,
              ⟨"987654", 2, 1, "SAVING", 150, "", 0, 0, 0⟩], []⟩
        "987654" 1 = some f →
      AccountDAO.get
        ⟨[], [⟨"987654", 1, 1, "CURRENT", 0, "", 0, 5000, 5000⟩,
              ⟨"987654", 2, 1, "SAVING", 150, "", 0, 0, 0⟩], []⟩
        "987654" 2 = some t →
      ∃ db', transfer_funds
          ⟨[], [⟨"987654", 1, 1, "CURRENT", 0, "", 0, 5000, 5000⟩,
                ⟨"987654", 2, 1, "SAVING", 150, "", 0, 0, 0⟩], []⟩
          1 2 10000 "987654" "d" "t" =
          .ok (db', f.actual_balance - 10000, t.actual_balance + 10000) ∧
        (∃ f2, AccountDAO.get db' "987654" 1 = some f2 ∧
          f2.available_balance = f.available_balance - 10000 ∧
          f2.actual_balance = f.actual_balance - 10000) ∧
        (∃ t2, AccountDAO.get db' "987654" 2 = some t2 ∧
          t2.available_balance = t.available_balance + 10000 ∧
          t2.actual_balance = t.actual_balance + 10000) ∧
        db'.transactions =
          (⟨[], [⟨"987654", 1, 1, "CURRENT", 0, "", 0, 5000, 5000⟩,
                 ⟨"987654", 2, 1, "SAVING", 150, "", 0, 0, 0⟩], []⟩ :
            DB).transactions ++
          [⟨"987654", 1, "d", "t", "TFR", "Transfer to " ++ toString 2, 10000⟩,
           ⟨"987654", 2, "d", "t", "TFR", "Transfer from " ++ toString 1,
            10000⟩]) ∧
    (AccountDAO.get
        ⟨[], [⟨"987654", 1, 1, "CURRENT", 0, "", 0, 5000, 5000⟩,
              ⟨"987654", 2, 1, "SAVING", 150, "", 0, 0, 0⟩], []⟩
        "987654" 1 = none →
      transfer_funds
        ⟨[], [⟨"987654", 1, 1, "CURRENT", 0, "", 0, 5000, 5000⟩,
              ⟨"987654", 2, 1, "SAVING", 150, "", 0, 0, 0⟩], []⟩
        1 2 10000 "987654" "d" "t" =
        .error (.accountNotFound ("From-account " ++ toString 1 ++
          " not found"))) ∧
    (∀ f, AccountDAO.get
        ⟨[], [⟨"987654", 1, 1, "CURRENT", 0, "", 0, 5000, 5000⟩,
              ⟨"987654", 2, 1, "SAVING", 150, "", 0, 0, 0⟩], []⟩
        "987654" 1 = some f →
      AccountDAO.get
        ⟨[], [⟨"987654", 1, 1, "CURRENT", 0, "", 0, 5000, 5000⟩,
              ⟨"987654", 2, 1, "SAVING", 150, "", 0, 0, 0⟩], []⟩
        "987654" 2 = none →
      transfer_funds
        ⟨[], [⟨"987654", 1, 1, "CURRENT", 0, "", 0, 5000, 5000⟩,
              ⟨"987654", 2, 1, "SAVING", 150, "", 0, 0, 0⟩], []⟩
        1 2 10000 "987654" "d" "t" =
        .error (.accountNotFound ("To-account " ++ toString 2 ++
          " not found"))) :=
  c2_transfer_funds
    ⟨[], [⟨"987654", 1, 1, "CURRENT", 0, "", 0, 5000, 5000⟩,
          ⟨"987654", 2, 1, "SAVING", 150, "", 0, 0, 0⟩], []⟩
    1 2 10000 "987654" "d" "t" (by decide)

/-- C2 as stated is false at from == to: with account 1 holding balance
5000, transfer_funds 1 1 100 leaves the stored available balance at 5100,
not at 5000 - 100 = 4900 as the claim requires of the source account. -/
theorem c2_counterexample :
    ((transfer_funds ⟨[], [⟨"987654", 1, 1, "CURRENT", 0, "", 0, 5000, 5000⟩],
        []⟩ 1 1 100 "987654" "d" "t").toOption.bind
      (fun p => (AccountDAO.get p.1 "987654" 1).map
        Account.available_balance)) = some 5100 ∧
    (5100 : Int) ≠ 5000 - 100 :=
  ⟨rfl, by decide⟩

/-- C10: a self-transfer of amount a reads the account once, then the
destination write (computed from the pre-transfer balance) overwrites the
source write: the stored row ends at balance + a on both fields, while the
returned dictionary reports from_balance = balance - a and
to_balance = balance + a, so for a ≠ 0 the reported from_balance disagrees
with the stored state and the stored balance has changed. -/
theorem c10_self_transfer (db : DB) (n : Nat) (a : Int) (sc d tm : String)
    (acc : Account) (hget : AccountDAO.get db sc n = some acc) :
    ∃ db', transfer_funds db n n a sc d tm =
        .ok (db', acc.actual_balance - a, acc.actual_balance + a) ∧
      (∃ acc2, AccountDAO.get db' sc n = some acc2 ∧
        acc2.available_balance = acc.available_balance + a ∧
        acc2.actual_balance = acc.actual_balance + a) ∧
      (a ≠ 0 → acc.actual_balance - a ≠ acc.actual_balance + a) := by
  obtain ⟨hsc, hn⟩ := get_account_key hget
  refine ⟨_, transfer_funds_eq_of_get hget hget a d tm, ?_, ?_⟩
  · refine ⟨{ acc with
        available_balance := acc.available_balance + a,
        actual_balance := acc.actual_balance + a }, ?_, rfl, rfl⟩
    rw [get_account_audit, get_account_audit, get_update_balance,
      get_update_balance, hget]
    simp [hsc, hn]
  · intro ha
    omega

/-- Witness for C10: account 1 with both balances 5000, self-transfer of
100: returned pair (4900, 5100), stored row (5100, 5100). -/
theorem c10_witness :
    ∃ db', transfer_funds
        ⟨[], [⟨"987654", 1, 1, "CURRENT", 0, "", 0, 5000, 5000⟩], []⟩
        1 1 100 "987654" "d" "t" =
        .ok (db', (5000 : Int) - 100, (5000 : Int) + 100) ∧
      (∃ acc2, AccountDAO.get db' "987654" 1 = some acc2 ∧
        acc2.available_balance = (5000 : Int) + 100 ∧
        acc2.actual_balance = (5000 : Int) + 100) ∧
      ((100 : Int) ≠ 0 → (5000 : Int) - 100 ≠ (5000 : Int) + 100) :=
  c10_self_transfer
    ⟨[], [⟨"987654", 1, 1, "CURRENT", 0, "", 0, 5000, 5000⟩], []⟩
    1 100 "987654" "d" "t" ⟨"987654", 1, 1, "CURRENT", 0, "", 0, 5000, 5000⟩
    rfl

-- ═══════════════════════════════════════════════════════════
-- C7: identifier allocation
-- ═══════════════════════════════════════════════════════════



lemma createSeq_spec (k : Nat) :
    (createSeq k).customers.map Customer.number = List.range' 1 k ∧
    (∀ c ∈ (createSeq k).customers, c.sortcode = SORT_CODE) := by
  induction k with
  | zero => exact ⟨rfl, fun c hc => absurd hc (List.not_mem_nil c)⟩
  | succ n ih =>
    obtain ⟨hnum, hsc⟩ := ih
    have hnext : CustomerDAO.next_number (createSeq n) SORT_CODE = n + 1 := by
      unfold CustomerDAO.next_number
      have hfilter : (createSeq n).customers.filter
          (fun c => c.sortcode == SORT_CODE) = (createSeq n).customers := by
        apply List.filter_eq_self.mpr
        intro c hc
        simp [hsc c hc]
      rw [hfilter, hnum, foldr_max_range']
    have hcat : List.range' 1 (n + 1) = List.range' 1 n ++ [n + 1] := by
      have h : List.range' 1 (n + 1) = List.range' 1 n ++ [1 + 1 * n] :=
        List.range'_concat 1 n
      simpa [Nat.add_comm] using h
    rw [createSeq]
    cases hr : create_customer (createSeq n) "Mr A" "addr" "1990-01-01"
        SORT_CODE 500 "2026-10-12" "d" "t" with
    | error e =>
      rw [create_customer, if_pos (by decide)] at hr
      cases hr
    | ok p =>
      obtain ⟨db', r⟩ := p
      obtain ⟨_, hcust, _, _, _⟩ := create_customer_ok_spec hr
      constructor
      · rw [hcust, List.map_append, hnum, hnext, hcat]
        rfl
      · intro c hc
        rw [hcust, List.mem_append] at hc
        rcases hc with hc | hc
        · exact hsc c hc
        · rw [List.mem_singleton] at hc
          subst hc
          rfl

/-- C7: next_number is one plus the maximum existing number of the entity
class within the sortcode (1 when none exist) and, being a pure function,
has no side effect; consequently k sequential customer creations from the
empty store receive exactly the gapless, strictly increasing numbers
1, 2, ..., k. -/
theorem c7_next_number_allocation :
    (∀ (db : DB) (sc : String),
      (((db.customers.filter (fun c => c.sortcode == sc)).map
          Customer.number) = [] → CustomerDAO.next_number db sc = 1) ∧
      (((db.customers.filter (fun c => c.sortcode == sc)).map
          Customer.number) ≠ [] →
        ∃ m, m ∈ ((db.customers.filter (fun c => c.sortcode == sc)).map
            Customer.number) ∧
          (∀ x ∈ ((db.customers.filter (fun c => c.sortcode == sc)).map
            Customer.number), x ≤ m) ∧
          CustomerDAO.next_number db sc = m + 1)) ∧
    (∀ (db : DB) (sc : String),
      (((db.accounts.filter (fun a => a.sortcode == sc)).map
          Account.number) = [] → AccountDAO.next_number db sc = 1) ∧
      (((db.accounts.filter (fun a => a.sortcode == sc)).map
          Account.number) ≠ [] →
        ∃ m, m ∈ ((db.accounts.filter (fun a => a.sortcode == sc)).map
            Account.number) ∧
          (∀ x ∈ ((db.accounts.filter (fun a => a.sortcode == sc)).map
            Account.number), x ≤ m) ∧
          AccountDAO.next_number db sc = m + 1)) ∧
    (∀ k, (createSeq k).customers.map Customer.number = List.range' 1 k) := by
  refine ⟨?_, ?_, fun k => (createSeq_spec k).1⟩
  · intro db sc
    constructor
    · intro hnil
      unfold CustomerDAO.next_number
      rw [hnil]
      rfl
    · intro hne
      refine ⟨((db.customers.filter (fun c => c.sortcode == sc)).map
          Customer.number).foldr max 0, ?_, ?_, ?_⟩
      · exact foldr_max_mem _ hne
      · exact fun x hx => foldr_max_le _ x hx
      · rfl
  · intro db sc
    constructor
    · intro hnil
      unfold AccountDAO.next_number
      rw [hnil]
      rfl
    · intro hne
      refine ⟨((db.accounts.filter (fun a => a.sortcode == sc)).map
          Account.number).foldr max 0, ?_, ?_, ?_⟩
      · exact foldr_max_mem _ hne
      · exact fun x hx => foldr_max_le _ x hx
      · rfl

/-- Witness for C7: a store with customers 1 and 2 allocates 3 next, and
three sequential creations from the empty store get the numbers 1, 2, 3. -/
theorem c7_witness :
    (∃ m, m ∈ (((⟨[⟨"987654", 1, "Mr A", "a", "", 500, "rd"⟩,
          ⟨"987654", 2, "Mrs B", "a", "", 500, "rd"⟩], [], []⟩ :
        DB).customers.filter (fun c => c.sortcode == "987654")).map
          Customer.number) ∧
      (∀ x ∈ (((⟨[⟨"987654", 1, "Mr A", "a", "", 500, "rd"⟩,
          ⟨"987654", 2, "Mrs B", "a", "", 500, "rd"⟩], [], []⟩ :
        DB).customers.filter (fun c => c.sortcode == "987654")).map
          Customer.number), x ≤ m) ∧
      CustomerDAO.next_number
        ⟨[⟨"987654", 1, "Mr A", "a", "", 500, "rd"⟩,
          ⟨"987654", 2, "Mrs B", "a", "", 500, "rd"⟩], [], []⟩ "987654" =
        m + 1) ∧
    (createSeq 3).customers.map Customer.number = List.range' 1 3 := by
  constructor
  · exact (c7_next_number_allocation.1
      ⟨[⟨"987654", 1, "Mr A", "a", "", 500, "rd"⟩,
        ⟨"987654", 2, "Mrs B", "a", "", 500, "rd"⟩], [], []⟩ "987654").2
      (by decide)
  · exact c7_next_number_allocation.2.2 3

-- ═══════════════════════════════════════════════════════════
-- C1: cascade delete, evaluated at the failing input
-- ═══════════════════════════════════════════════════════════



/-- C1 fails on the code at N = 21: delete_customer fetches the owned
accounts through get_by_customer, which caps the result at
MAX_ACCOUNTS_PER_QUERY = 20, so it deletes only accounts 1..20, deletes the
customer row anyway, leaves account 21 orphaned (referencing a customer
that no longer exists), and appends 20 ODA entries plus one ODC — 21 audit
entries, not the N + 1 = 22 the claim requires. -/
theorem c1_cascade_delete_cap :
    dbC1.accounts.length = 21 ∧
    dbC1.accounts.all (fun a => a.customer_number == 1) = true ∧
    (delete_customer dbC1 1 SORT_CODE "d" "t").toOption.map
      (fun p => (p.1.customers.length, p.1.accounts.map Account.number,
        p.1.transactions.map Transaction.trans_type)) =
      some (0, [21], List.replicate 20 "ODA" ++ ["ODC"]) :=
  ⟨rfl, rfl, rfl⟩

end Bank
